import Mathlib

/-!
Shallow embedding of the USD/JPY forward FX rate calculator (src/app.py).

Numeric modelling: Python floats are modelled as rationals (ℚ); Python ints
as ℤ.  Python float division raises `ZeroDivisionError` on a zero divisor,
which the source catches; the embedding makes that branch an explicit test
on the divisor.  Calendar dates are modelled by a proleptic Gregorian
`Date` structure; Python's `date.toordinal` becomes `toOrdinal`, and
`dateutil.relativedelta` additions become `addDays` / `addMonths` /
`addYears` with the same month-end clamping.  The `st.error` / `st.warning`
calls of the source are modelled as an explicit error/warning channel in
the return value, since they are the only observable distinction between
the failure branches.
-/

/-- A proleptic Gregorian calendar date (Python `datetime.date`, with the
year unbounded instead of restricted to 1..9999). -/
structure Date where
  year : ℤ
  month : ℕ
  day : ℕ
deriving DecidableEq, Repr

/-- Gregorian leap-year test (`calendar.isleap`). -/
def isLeap (y : ℤ) : Bool :=
  y.emod 4 == 0 && (y.emod 100 != 0 || y.emod 400 == 0)

/-- Number of days in a month (`calendar.monthrange(y, m)[1]`). -/
def daysInMonth (y : ℤ) (m : ℕ) : ℕ :=
  if m = 2 then (if isLeap y then 29 else 28)
  else if m = 4 ∨ m = 6 ∨ m = 9 ∨ m = 11 then 30
  else 31

/-- Days in year `y` strictly before month `m`. -/
def daysBeforeMonth (y : ℤ) (m : ℕ) : ℕ :=
  ((List.range (m - 1)).map (fun k => daysInMonth y (k + 1))).sum

/-- Python `date.toordinal`: day number with `date(1,1,1).toordinal() = 1`,
extended to the proleptic calendar for nonpositive years via floor
division. -/
def toOrdinal (d : Date) : ℤ :=
  365 * (d.year - 1) + (d.year - 1).ediv 4 - (d.year - 1).ediv 100
    + (d.year - 1).ediv 400 + (daysBeforeMonth d.year d.month : ℤ) + (d.day : ℤ)

/-- Successor date (used to model `date + timedelta(days=1)`). -/
def nextDay (d : Date) : Date :=
  if d.day < daysInMonth d.year d.month then ⟨d.year, d.month, d.day + 1⟩
  else if d.month < 12 then ⟨d.year, d.month + 1, 1⟩
  else ⟨d.year + 1, 1, 1⟩

/-- Predecessor date (used to model `date - timedelta(days=1)`). -/
def prevDay (d : Date) : Date :=
  if 1 < d.day then ⟨d.year, d.month, d.day - 1⟩
  else if 1 < d.month then ⟨d.year, d.month - 1, daysInMonth d.year (d.month - 1)⟩
  else ⟨d.year - 1, 12, 31⟩

/-- Add `n` days to a date. -/
def addDays (d : Date) : ℕ → Date
  | 0 => d
  | n + 1 => nextDay (addDays d n)

/-- Subtract `n` days from a date. -/
def subDays (d : Date) : ℕ → Date
  | 0 => d
  | n + 1 => prevDay (subDays d n)

/-- Add a signed number of days (`date + timedelta(days=n)`,
`relativedelta(weeks=k)` normalises to `days = 7*k`). -/
def addDaysZ (d : Date) (n : ℤ) : Date :=
  if 0 ≤ n then addDays d n.toNat else subDays d (-n).toNat

/-- `start_date + relativedelta(months=n)`: total-month arithmetic with the
day-of-month clamped to the target month's length (month-end clamping). -/
def addMonths (d : Date) (n : ℤ) : Date :=
  let tm : ℤ := 12 * d.year + ((d.month : ℤ) - 1) + n
  let y : ℤ := tm.ediv 12
  let m : ℕ := (tm.emod 12).toNat + 1
  ⟨y, m, min d.day (daysInMonth y m)⟩

/-- `start_date + relativedelta(years=n)`: add to the year, clamping the
day to the target month's length (Feb 29 → Feb 28 in non-leap years). -/
def addYears (d : Date) (n : ℤ) : Date :=
  let y : ℤ := d.year + n
  ⟨y, d.month, min d.day (daysInMonth y d.month)⟩

/-- The distinct `st.error` messages of `calculate_forward_rate`, used as
failure kinds.  `invalidDayBasis` is the message of the
`except ZeroDivisionError` handler ("Day basis cannot be zero."),
`computationError` the catch-all `except Exception` handler. -/
inductive CalcError where
  | invalidDateOrder
  | invalidDayBasis
  | computationError
deriving DecidableEq, Repr

/-- The return of `calculate_forward_rate`: the (at most one) `st.error`
message emitted, plus the literal Python triple
`(forward_rate, forward_points, days)` of `Optional` values. -/
structure CalcResult where
  error : Option CalcError
  fwd_rate : Option ℚ
  fwd_points : Option ℚ
  days : Option ℤ
deriving DecidableEq, Repr

/-- `calculate_forward_rate` (src/app.py lines 15-68).  Date comparison and
subtraction go through `toOrdinal`, as in Python.  The zero test on the
denominator models Python float division raising `ZeroDivisionError`,
which lands in the same handler as the explicit `day_basis == 0` raise. -/
def calculate_forward_rate (spot_rate rate_base_pct rate_quote_pct : ℚ)
    (value_date forward_date : Date) (day_basis : ℤ) : CalcResult :=
  if toOrdinal forward_date ≤ toOrdinal value_date then
    ⟨some .invalidDateOrder, none, none, none⟩
  else
    let rate_base : ℚ := rate_base_pct / 100
    let rate_quote : ℚ := rate_quote_pct / 100
    let days : ℤ := toOrdinal forward_date - toOrdinal value_date
    if day_basis = 0 then
      ⟨some .invalidDayBasis, none, none, none⟩
    else
      let t : ℚ := (days : ℚ) / (day_basis : ℚ)
      let den : ℚ := 1 + rate_base * t
      if den = 0 then
        ⟨some .invalidDayBasis, none, none, none⟩
      else
        let forward_rate : ℚ := spot_rate * ((1 + rate_quote * t) / den)
        let forward_points : ℚ := (forward_rate - spot_rate) * 100
        ⟨none, some forward_rate, some forward_points, some days⟩

/-- ASCII whitespace stripped by Python `int(str)` before parsing. -/
def isPyWS (c : Char) : Bool :=
  c == ' ' || c == '\t' || c == '\n' || c == '\r' || c == '\x0b' || c == '\x0c'

/-- Strip leading and trailing whitespace, as `int(str)` does. -/
def stripPyWS (l : List Char) : List Char :=
  ((l.dropWhile isPyWS).reverse.dropWhile isPyWS).reverse

/-- Decimal digits after the first one, allowing single underscores between
digits, per Python's integer-literal grammar for `int(str)`. -/
def pyDigitsCore (acc : ℕ) : List Char → Option ℕ
  | [] => some acc
  | c :: rest =>
    if c.isDigit then pyDigitsCore (acc * 10 + (c.toNat - 48)) rest
    else if c == '_' then
      match rest with
      | [] => none
      | d :: rest2 =>
        if d.isDigit then pyDigitsCore (acc * 10 + (d.toNat - 48)) rest2 else none
    else none

/-- A nonempty digit run (the part after an optional sign); the first
character must be a digit. -/
def pyIntStart : List Char → Option ℕ
  | [] => none
  | c :: rest => if c.isDigit then pyDigitsCore (c.toNat - 48) rest else none

/-- Python `int(str)` in base 10: optional surrounding whitespace, optional
sign, digits with single underscores between them; `none` models the
`ValueError`. -/
def pyIntParse (l : List Char) : Option ℤ :=
  match stripPyWS l with
  | '+' :: rest => (pyIntStart rest).map (fun n => (n : ℤ))
  | '-' :: rest => (pyIntStart rest).map (fun n => -(n : ℤ))
  | s => pyIntStart s

/-- The `st.warning` / `st.error` messages of `get_future_date`:
`parseError` is "Could not parse tenor string" (the `except ValueError`
branch), `unrecognizedUnit` is "Unrecognized tenor unit", `otherError`
the defensive `except Exception` branch. -/
inductive TenorWarn where
  | parseError
  | unrecognizedUnit
  | otherError
deriving DecidableEq, Repr

/-- `get_future_date` (src/app.py lines 71-100): the emitted warning (if
any) together with the returned date, which is `start_date` unchanged on
every failure branch.  `tenor_str[:-1]` is `dropLast`, `tenor_str[-1]`
is `getLast?`; `int(...)` runs first, as in the source. -/
def get_future_date (start_date : Date) (tenor_str : String) : Option TenorWarn × Date :=
  match pyIntParse tenor_str.data.dropLast with
  | none => (some .parseError, start_date)
  | some num =>
    match tenor_str.data.getLast? with
    | none => (some .otherError, start_date)
    | some c =>
      let unit : Char := c.toUpper
      if unit = 'W' then (none, addDaysZ start_date (7 * num))
      else if unit = 'M' then (none, addMonths start_date num)
      else if unit = 'Y' then (none, addYears start_date num)
      else (some .unrecognizedUnit, start_date)

/-- One row of the `forward_data` list (src/app.py lines 198-206). -/
structure CurveRow where
  tenor : String
  settlement_date : Date
  days : ℤ
  forward_rate : ℚ
  forward_points : ℚ
deriving DecidableEq, Repr

/-- The fixed tenor schedule (src/app.py line 183). -/
def tenors : List String := ["1W", "1M", "2M", "3M", "6M", "9M", "1Y", "2Y"]

/-- One iteration of the module-level `for tenor in tenors` loop
(src/app.py lines 187-211): resolve the tenor, keep the row only when the
resolved date is strictly after the value date and all three computed
components are non-`None`. -/
def curve_step (spot_rate usd_rate_pct jpy_rate_pct : ℚ) (value_date : Date)
    (day_basis : ℤ) (acc : List CurveRow) (tenor : String) : List CurveRow :=
  let f_date : Date := (get_future_date value_date tenor).2
  if toOrdinal value_date < toOrdinal f_date then
    let r := calculate_forward_rate spot_rate usd_rate_pct jpy_rate_pct
      value_date f_date day_basis
    match r.fwd_rate, r.fwd_points, r.days with
    | some fw_rate, some fw_points, some days =>
      acc ++ [⟨tenor, f_date, days, fw_rate, fw_points⟩]
    | _, _, _ => acc
  else acc

/-- The module-level curve assembly: fold the loop body over the fixed
tenor schedule, starting from the empty `forward_data` list. -/
def forward_data (spot_rate usd_rate_pct jpy_rate_pct : ℚ) (value_date : Date)
    (day_basis : ℤ) : List CurveRow :=
  tenors.foldl (curve_step spot_rate usd_rate_pct jpy_rate_pct value_date day_basis) []

/-- The per-tenor row the spec describes for `buildForwardCurve`: `some`
row exactly when the resolved date is strictly after the value date and
the forward computation succeeds, `none` otherwise. -/
def curveRowOf (spot_rate usd_rate_pct jpy_rate_pct : ℚ) (value_date : Date)
    (day_basis : ℤ) (tenor : String) : Option CurveRow :=
  let f_date : Date := (get_future_date value_date tenor).2
  if toOrdinal value_date < toOrdinal f_date then
    let r := calculate_forward_rate spot_rate usd_rate_pct jpy_rate_pct
      value_date f_date day_basis
    match r.fwd_rate, r.fwd_points, r.days with
    | some fw_rate, some fw_points, some days =>
      some ⟨tenor, f_date, days, fw_rate, fw_points⟩
    | _, _, _ => none
  else none

lemma calc_success (spot b q : ℚ) (vd fd : Date) (basis : ℤ)
    (h1 : toOrdinal vd < toOrdinal fd) (h2 : basis ≠ 0)
    (h3 : 1 + b / 100 * (((toOrdinal fd - toOrdinal vd : ℤ) : ℚ) / ((basis : ℤ) : ℚ)) ≠ 0) :
    calculate_forward_rate spot b q vd fd basis =
      ⟨none,
       some (spot * ((1 + q / 100 * (((toOrdinal fd - toOrdinal vd : ℤ) : ℚ) / ((basis : ℤ) : ℚ)))
          / (1 + b / 100 * (((toOrdinal fd - toOrdinal vd : ℤ) : ℚ) / ((basis : ℤ) : ℚ))))),
       some ((spot * ((1 + q / 100 * (((toOrdinal fd - toOrdinal vd : ℤ) : ℚ) / ((basis : ℤ) : ℚ)))
          / (1 + b / 100 * (((toOrdinal fd - toOrdinal vd : ℤ) : ℚ) / ((basis : ℤ) : ℚ)))) - spot) * 100),
       some (toOrdinal fd - toOrdinal vd)⟩ := by
  simp only [calculate_forward_rate]
  rw [if_neg (not_le.mpr h1), if_neg h2, if_neg h3]

/-- C1: for every input with the forward date strictly after the value
date, a nonzero day basis, and a nonzero denominator
`1 + (baseRatePct/100)*(days/dayBasis)`, `calculate_forward_rate` succeeds
and returns exactly `days = forwardDate - valueDate` (the plain calendar
day count), `forwardRate = spotRate * (1 + (quoteRatePct/100)*(days/dayBasis))
/ (1 + (baseRatePct/100)*(days/dayBasis))` and
`forwardPoints = (forwardRate - spotRate) * 100`. -/
theorem c1_forward_formula (spot b q : ℚ) (vd fd : Date) (basis : ℤ)
    (h1 : toOrdinal vd < toOrdinal fd) (h2 : basis ≠ 0)
    (h3 : 1 + b / 100 * (((toOrdinal fd - toOrdinal vd : ℤ) : ℚ) / ((basis : ℤ) : ℚ)) ≠ 0) :
    calculate_forward_rate spot b q vd fd basis =
      ⟨none,
       some (spot * ((1 + q / 100 * (((toOrdinal fd - toOrdinal vd : ℤ) : ℚ) / ((basis : ℤ) : ℚ)))
          / (1 + b / 100 * (((toOrdinal fd - toOrdinal vd : ℤ) : ℚ) / ((basis : ℤ) : ℚ))))),
       some ((spot * ((1 + q / 100 * (((toOrdinal fd - toOrdinal vd : ℤ) : ℚ) / ((basis : ℤ) : ℚ)))
          / (1 + b / 100 * (((toOrdinal fd - toOrdinal vd : ℤ) : ℚ) / ((basis : ℤ) : ℚ)))) - spot) * 100),
       some (toOrdinal fd - toOrdinal vd)⟩ :=
  calc_success spot b q vd fd basis h1 h2 h3

/-- Witness for C1 at the spec's concrete scenario: spot 145.50, USD rate
5.25%, JPY rate -0.10%, value date 2024-01-15, forward date 2024-04-15,
basis 360; the day count is 91. -/
theorem c1_forward_formula_witness :
    (calculate_forward_rate (291/2) (21/4) (-1/10) ⟨2024,1,15⟩ ⟨2024,4,15⟩ 360).days
      = some 91 := by
  rw [c1_forward_formula (291/2) (21/4) (-1/10) ⟨2024,1,15⟩ ⟨2024,4,15⟩ 360
    (by decide) (by decide)
    (by rw [show toOrdinal (⟨2024,4,15⟩:Date) - toOrdinal ⟨2024,1,15⟩ = (91:ℤ) from by decide]
        norm_num)]
  decide

/-- C3: whenever the forward date is not strictly after the value date,
`calculate_forward_rate` emits the invalid-date-order error and returns the
all-`None` triple; the early `return` means no computation is attempted. -/
theorem c3_invalid_date_order (spot b q : ℚ) (vd fd : Date) (basis : ℤ)
    (h : toOrdinal fd ≤ toOrdinal vd) :
    calculate_forward_rate spot b q vd fd basis =
      ⟨some .invalidDateOrder, none, none, none⟩ := by
  simp only [calculate_forward_rate]
  rw [if_pos h]

/-- Witness for C3 with equal dates. -/
theorem c3_invalid_date_order_witness :
    calculate_forward_rate (291/2) (21/4) (-1/10) ⟨2024,1,15⟩ ⟨2024,1,15⟩ 360 =
      ⟨some .invalidDateOrder, none, none, none⟩ :=
  c3_invalid_date_order (291/2) (21/4) (-1/10) ⟨2024,1,15⟩ ⟨2024,1,15⟩ 360 (by decide)

/-- C8: with the forward date strictly after the value date and a zero day
basis, `calculate_forward_rate` fails through the "Day basis cannot be
zero." handler and returns the all-`None` triple. -/
theorem c8_zero_day_basis (spot b q : ℚ) (vd fd : Date)
    (h : toOrdinal vd < toOrdinal fd) :
    calculate_forward_rate spot b q vd fd 0 =
      ⟨some .invalidDayBasis, none, none, none⟩ := by
  simp only [calculate_forward_rate]
  rw [if_neg (not_le.mpr h)]
  simp

/-- Witness for C8. -/
theorem c8_zero_day_basis_witness :
    calculate_forward_rate (291/2) (21/4) (-1/10) ⟨2024,1,15⟩ ⟨2024,4,15⟩ 0 =
      ⟨some .invalidDayBasis, none, none, none⟩ :=
  c8_zero_day_basis (291/2) (21/4) (-1/10) ⟨2024,1,15⟩ ⟨2024,4,15⟩ (by decide)

/-- C10: every call of `calculate_forward_rate` returns either all three
numeric components as values, or all three as `None`; no branch produces a
partial result. -/
theorem c10_all_or_nothing (spot b q : ℚ) (vd fd : Date) (basis : ℤ) :
    ((calculate_forward_rate spot b q vd fd basis).fwd_rate = none ∧
     (calculate_forward_rate spot b q vd fd basis).fwd_points = none ∧
     (calculate_forward_rate spot b q vd fd basis).days = none) ∨
    ((calculate_forward_rate spot b q vd fd basis).fwd_rate.isSome ∧
     (calculate_forward_rate spot b q vd fd basis).fwd_points.isSome ∧
     (calculate_forward_rate spot b q vd fd basis).days.isSome) := by
  simp only [calculate_forward_rate]
  split_ifs <;> simp

lemma calc_zero_den (spot b q : ℚ) (vd fd : Date) (basis : ℤ)
    (h1 : toOrdinal vd < toOrdinal fd) (h2 : basis ≠ 0)
    (h3 : 1 + b / 100 * (((toOrdinal fd - toOrdinal vd : ℤ) : ℚ) / ((basis : ℤ) : ℚ)) = 0) :
    calculate_forward_rate spot b q vd fd basis =
      ⟨some .invalidDayBasis, none, none, none⟩ := by
  simp only [calculate_forward_rate]
  rw [if_neg (not_le.mpr h1), if_neg h2, if_pos h3]

/-- C9 counterexample: at spot 1, base rate -100%, quote rate 0%, value
date 2024-01-01, forward date 2024-12-26 (360 days) and basis 360, the
denominator `1 + (-100/100)*(360/360)` is exactly zero, and the reported
kind is the "Day basis cannot be zero." one (`invalidDayBasis`), not the
catch-all `computationError`. -/
theorem c9_counterexample :
    calculate_forward_rate 1 (-100) 0 ⟨2024,1,1⟩ ⟨2024,12,26⟩ 360 =
      ⟨some .invalidDayBasis, none, none, none⟩ ∧
    CalcError.invalidDayBasis ≠ CalcError.computationError := by
  refine ⟨calc_zero_den 1 (-100) 0 ⟨2024,1,1⟩ ⟨2024,12,26⟩ 360 (by decide) (by decide) ?_,
    by decide⟩
  rw [show toOrdinal (⟨2024,12,26⟩:Date) - toOrdinal ⟨2024,1,1⟩ = (360:ℤ) from by decide]
  norm_num

/-- C9 amended: with the forward date strictly after the value date and a
nonzero day basis, a zero formula denominator makes the computation raise
`ZeroDivisionError`, which is caught by the same "Day basis cannot be
zero." handler as `day_basis == 0`; the reported kind is therefore
`invalidDayBasis` — distinct from `invalidDateOrder` and from the
`computationError` catch-all, which is not reached — and the call does not
crash, returning the all-`None` triple. -/
theorem c9_zero_denominator (spot b q : ℚ) (vd fd : Date) (basis : ℤ)
    (h1 : toOrdinal vd < toOrdinal fd) (h2 : basis ≠ 0)
    (h3 : 1 + b / 100 * (((toOrdinal fd - toOrdinal vd : ℤ) : ℚ) / ((basis : ℤ) : ℚ)) = 0) :
    calculate_forward_rate spot b q vd fd basis =
      ⟨some .invalidDayBasis, none, none, none⟩ ∧
    CalcError.invalidDayBasis ≠ CalcError.invalidDateOrder ∧
    CalcError.invalidDayBasis ≠ CalcError.computationError :=
  ⟨calc_zero_den spot b q vd fd basis h1 h2 h3, by decide, by decide⟩

/-- Witness for C9's amended theorem at the counterexample's input. -/
theorem c9_zero_denominator_witness :
    calculate_forward_rate 2 (-100) 0 ⟨2024,1,1⟩ ⟨2024,12,26⟩ 360 =
      ⟨some .invalidDayBasis, none, none, none⟩ := by
  have h := c9_zero_denominator 2 (-100) 0 ⟨2024,1,1⟩ ⟨2024,12,26⟩ 360
    (by decide) (by decide)
    (by rw [show toOrdinal (⟨2024,12,26⟩:Date) - toOrdinal ⟨2024,1,1⟩ = (360:ℤ) from by decide]
        norm_num)
  exact h.1

/-- C6 counterexample: with equal rates -100% on both legs, 360 days and
basis 360, the shared denominator is exactly zero, so the call fails
through the zero-division handler and returns no forward rate at all —
rather than returning `forwardRate = spotRate` "for any days and
dayBasis". -/
theorem c6_counterexample :
    calculate_forward_rate 100 (-100) (-100) ⟨2024,1,1⟩ ⟨2024,12,26⟩ 360 =
      ⟨some .invalidDayBasis, none, none, none⟩ ∧
    (calculate_forward_rate 100 (-100) (-100) ⟨2024,1,1⟩ ⟨2024,12,26⟩ 360).fwd_rate
      ≠ some 100 := by
  have h := calc_zero_den 100 (-100) (-100) ⟨2024,1,1⟩ ⟨2024,12,26⟩ 360
    (by decide) (by decide)
    (by rw [show toOrdinal (⟨2024,12,26⟩:Date) - toOrdinal ⟨2024,1,1⟩ = (360:ℤ) from by decide]
        norm_num)
  exact ⟨h, by rw [h]; simp⟩

/-- C6 amended: with the forward date strictly after the value date, a
nonzero day basis, equal base and quote rates, and the (shared) formula
denominator nonzero, the forward rate equals the spot rate exactly and the
forward points are exactly zero. -/
theorem c6_equal_rates (spot r : ℚ) (vd fd : Date) (basis : ℤ)
    (h1 : toOrdinal vd < toOrdinal fd) (h2 : basis ≠ 0)
    (h3 : 1 + r / 100 * (((toOrdinal fd - toOrdinal vd : ℤ) : ℚ) / ((basis : ℤ) : ℚ)) ≠ 0) :
    (calculate_forward_rate spot r r vd fd basis).fwd_rate = some spot ∧
    (calculate_forward_rate spot r r vd fd basis).fwd_points = some 0 := by
  rw [calc_success spot r r vd fd basis h1 h2 h3, div_self h3]
  simp

/-- Witness for C6's amended theorem: equal 5% rates over 30 days. -/
theorem c6_equal_rates_witness :
    (calculate_forward_rate 100 5 5 ⟨2024,1,1⟩ ⟨2024,1,31⟩ 360).fwd_rate = some 100 ∧
    (calculate_forward_rate 100 5 5 ⟨2024,1,1⟩ ⟨2024,1,31⟩ 360).fwd_points = some 0 :=
  c6_equal_rates 100 5 ⟨2024,1,1⟩ ⟨2024,1,31⟩ 360 (by decide) (by decide)
    (by rw [show toOrdinal (⟨2024,1,31⟩:Date) - toOrdinal ⟨2024,1,1⟩ = (30:ℤ) from by decide]
        norm_num)

/-- C5 counterexample: fixed spot 100, base rate -100%, quote rate 0%
(so quote > base), basis 360, same value date 2024-01-01; the computations
at 180 days (2024-06-29) and 720 days (2025-12-21) both succeed, but the
forward rate falls from 200 to -100 because the denominator changes sign —
the claimed strict monotonicity fails. -/
theorem c5_counterexample :
    ((-100:ℚ) < 0) ∧
    calculate_forward_rate 100 (-100) 0 ⟨2024,1,1⟩ ⟨2024,6,29⟩ 360 =
      ⟨none, some 200, some 10000, some 180⟩ ∧
    calculate_forward_rate 100 (-100) 0 ⟨2024,1,1⟩ ⟨2025,12,21⟩ 360 =
      ⟨none, some (-100), some (-20000), some 720⟩ ∧
    (180:ℤ) < 720 ∧ ¬ ((200:ℚ) < -100) := by
  refine ⟨by norm_num, ?_, ?_, by norm_num, by norm_num⟩
  · rw [calc_success 100 (-100) 0 ⟨2024,1,1⟩ ⟨2024,6,29⟩ 360 (by decide) (by decide)
      (by rw [show toOrdinal (⟨2024,6,29⟩:Date) - toOrdinal ⟨2024,1,1⟩ = (180:ℤ) from by decide]
          norm_num),
      show toOrdinal (⟨2024,6,29⟩:Date) - toOrdinal ⟨2024,1,1⟩ = (180:ℤ) from by decide]
    norm_num [CalcResult.mk.injEq]
  · rw [calc_success 100 (-100) 0 ⟨2024,1,1⟩ ⟨2025,12,21⟩ 360 (by decide) (by decide)
      (by rw [show toOrdinal (⟨2025,12,21⟩:Date) - toOrdinal ⟨2024,1,1⟩ = (720:ℤ) from by decide]
          norm_num),
      show toOrdinal (⟨2025,12,21⟩:Date) - toOrdinal ⟨2024,1,1⟩ = (720:ℤ) from by decide]
    norm_num [CalcResult.mk.injEq]

/-- C5 amended: with a positive spot rate, a positive day basis,
`quoteRatePct > baseRatePct`, both forward dates strictly after the shared
value date, `days1 < days2`, and both formula denominators positive, the
two computations succeed and the forward rate strictly increases with the
day count. -/
theorem c5_monotone (spot b q : ℚ) (vd fd1 fd2 : Date) (basis : ℤ)
    (hs : 0 < spot) (hbasis : 0 < basis) (hrate : b < q)
    (h1 : toOrdinal vd < toOrdinal fd1) (h2 : toOrdinal vd < toOrdinal fd2)
    (hdays : toOrdinal fd1 < toOrdinal fd2)
    (hd1 : 0 < 1 + b / 100 * (((toOrdinal fd1 - toOrdinal vd : ℤ) : ℚ) / ((basis : ℤ) : ℚ)))
    (hd2 : 0 < 1 + b / 100 * (((toOrdinal fd2 - toOrdinal vd : ℤ) : ℚ) / ((basis : ℤ) : ℚ))) :
    ∃ fr1 fr2 : ℚ,
      (calculate_forward_rate spot b q vd fd1 basis).fwd_rate = some fr1 ∧
      (calculate_forward_rate spot b q vd fd2 basis).fwd_rate = some fr2 ∧
      fr1 < fr2 := by
  have e1 := calc_success spot b q vd fd1 basis h1 hbasis.ne' (ne_of_gt hd1)
  have e2 := calc_success spot b q vd fd2 basis h2 hbasis.ne' (ne_of_gt hd2)
  refine ⟨_, _, by rw [e1], by rw [e2], ?_⟩
  have hbq : (0:ℚ) < ((basis : ℤ) : ℚ) := by exact_mod_cast hbasis
  have ht : ((toOrdinal fd1 - toOrdinal vd : ℤ) : ℚ) / ((basis : ℤ) : ℚ)
      < ((toOrdinal fd2 - toOrdinal vd : ℤ) : ℚ) / ((basis : ℤ) : ℚ) := by
    apply div_lt_div_of_pos_right _ hbq
    exact_mod_cast sub_lt_sub_right hdays (toOrdinal vd)
  apply mul_lt_mul_of_pos_left _ hs
  rw [div_lt_div_iff₀ hd1 hd2]
  nlinarith [mul_pos (show (0:ℚ) < q / 100 - b / 100 by linarith)
    (sub_pos.mpr ht), hd1, hd2]

/-- Witness for C5's amended theorem: spot 100, base 1%, quote 2%, basis
360, day counts 1 and 2. -/
theorem c5_monotone_witness :
    ∃ fr1 fr2 : ℚ,
      (calculate_forward_rate 100 1 2 ⟨2024,1,1⟩ ⟨2024,1,2⟩ 360).fwd_rate = some fr1 ∧
      (calculate_forward_rate 100 1 2 ⟨2024,1,1⟩ ⟨2024,1,3⟩ 360).fwd_rate = some fr2 ∧
      fr1 < fr2 :=
  c5_monotone 100 1 2 ⟨2024,1,1⟩ ⟨2024,1,2⟩ ⟨2024,1,3⟩ 360
    (by norm_num) (by norm_num) (by norm_num) (by decide) (by decide) (by decide)
    (by rw [show toOrdinal (⟨2024,1,2⟩:Date) - toOrdinal ⟨2024,1,1⟩ = (1:ℤ) from by decide]
        norm_num)
    (by rw [show toOrdinal (⟨2024,1,3⟩:Date) - toOrdinal ⟨2024,1,1⟩ = (2:ℤ) from by decide]
        norm_num)

/-- C4: for any start date and tenor string whose trailing character
uppercases to `M` and whose preceding characters parse as a positive
integer `m`, `get_future_date` returns `addMonths`: the total month count
advances by exactly `m` (with the resulting month in 1..12), the day is
clamped to the target month's length, and in particular
2024-01-31 + "1M" = 2024-02-29 and 2023-01-31 + "1M" = 2023-02-28. -/
theorem c4_month_tenor (d : Date) (tenor : String) (m : ℤ) (c : Char)
    (hp : pyIntParse tenor.data.dropLast = some m) (_h_pos : 0 < m)
    (hc : tenor.data.getLast? = some c) (hu : c.toUpper = 'M') :
    get_future_date d tenor = (none, addMonths d m) ∧
    12 * (addMonths d m).year + ((addMonths d m).month : ℤ)
      = 12 * d.year + (d.month : ℤ) + m ∧
    1 ≤ (addMonths d m).month ∧ (addMonths d m).month ≤ 12 ∧
    (addMonths d m).day = min d.day (daysInMonth (addMonths d m).year (addMonths d m).month) ∧
    get_future_date ⟨2024,1,31⟩ "1M" = (none, ⟨2024,2,29⟩) ∧
    get_future_date ⟨2023,1,31⟩ "1M" = (none, ⟨2023,2,28⟩) := by
  have hdisp : get_future_date d tenor = (none, addMonths d m) := by
    simp only [get_future_date, hp, hc, hu]
    rfl
  have hnn : 0 ≤ (12 * d.year + ((d.month : ℤ) - 1) + m).emod 12 :=
    Int.emod_nonneg (12 * d.year + ((d.month : ℤ) - 1) + m) (show (12:ℤ) ≠ 0 by norm_num)
  have hlt : (12 * d.year + ((d.month : ℤ) - 1) + m).emod 12 < 12 :=
    Int.emod_lt_of_pos (12 * d.year + ((d.month : ℤ) - 1) + m) (show (0:ℤ) < 12 by norm_num)
  have heq : 12 * ((12 * d.year + ((d.month : ℤ) - 1) + m).ediv 12)
      + (12 * d.year + ((d.month : ℤ) - 1) + m).emod 12
      = 12 * d.year + ((d.month : ℤ) - 1) + m :=
    Int.ediv_add_emod (12 * d.year + ((d.month : ℤ) - 1) + m) 12
  refine ⟨hdisp, ?_, ?_, ?_, ?_, by decide, by decide⟩
  · simp only [addMonths]
    push_cast [Int.toNat_of_nonneg hnn]
    omega
  · simp only [addMonths]
    omega
  · simp only [addMonths]
    omega
  · simp only [addMonths]

/-- Witness for C4 at the leap-year month-end example. -/
theorem c4_month_tenor_witness :
    get_future_date ⟨2024,1,31⟩ "1M" = (none, ⟨2024,2,29⟩) := by
  have h := c4_month_tenor ⟨2024,1,31⟩ "1M" 1 'M' (by decide) (by decide) (by decide) (by decide)
  exact h.2.2.2.2.2.1

/-- C7 counterexample: the tenor code "-1W" has magnitude "-1", which does
not parse as a positive integer, yet `get_future_date` does not fail: it
emits no warning and returns the start date minus seven days (Python
`int("-1")` succeeds, so positivity is never enforced). -/
theorem c7_counterexample :
    pyIntParse "-1W".data.dropLast = some (-1) ∧ ¬ ((0:ℤ) < -1) ∧
    get_future_date ⟨2024,1,15⟩ "-1W" = (none, ⟨2024,1,8⟩) := by
  refine ⟨by decide, by decide, by decide⟩

/-- C7 amended: `get_future_date` fails with an unrecognized-tenor warning
— either the parse-failure warning, when the characters before the last do
not parse as a Python integer (an optional sign is accepted, so positivity
is not required), or the unrecognized-unit warning, when they do parse but
the trailing character does not uppercase to `W`, `M` or `Y` — and in both
cases the unchanged start date is returned only as the failure payload. -/
theorem c7_unrecognized (d : Date) (tenor : String)
    (h : pyIntParse tenor.data.dropLast = none ∨
      (∃ m c, pyIntParse tenor.data.dropLast = some m ∧ tenor.data.getLast? = some c ∧
        c.toUpper ≠ 'W' ∧ c.toUpper ≠ 'M' ∧ c.toUpper ≠ 'Y')) :
    ((get_future_date d tenor).1 = some TenorWarn.parseError ∨
     (get_future_date d tenor).1 = some TenorWarn.unrecognizedUnit) ∧
    (get_future_date d tenor).2 = d := by
  rcases h with h | ⟨m, c, hp, hc, hw, hm, hy⟩
  · simp [get_future_date, h]
  · simp only [get_future_date, hp, hc]
    rw [if_neg hw, if_neg hm, if_neg hy]
    simp

/-- Witness for C7's amended theorem on the tenor code "1X". -/
theorem c7_unrecognized_witness :
    ((get_future_date ⟨2024,1,15⟩ "1X").1 = some TenorWarn.parseError ∨
     (get_future_date ⟨2024,1,15⟩ "1X").1 = some TenorWarn.unrecognizedUnit) ∧
    (get_future_date ⟨2024,1,15⟩ "1X").2 = ⟨2024,1,15⟩ :=
  c7_unrecognized ⟨2024,1,15⟩ "1X"
    (Or.inr ⟨1, 'X', by decide, by decide, by decide, by decide, by decide⟩)

lemma curve_step_eq (spot b q : ℚ) (vd : Date) (basis : ℤ)
    (acc : List CurveRow) (tenor : String) :
    curve_step spot b q vd basis acc tenor
      = acc ++ (curveRowOf spot b q vd basis tenor).toList := by
  simp only [curve_step, curveRowOf]
  split_ifs with h
  · rcases hr : calculate_forward_rate spot b q vd ((get_future_date vd tenor).2) basis
      with ⟨e, fr, fp, dy⟩
    rcases fr <;> rcases fp <;> rcases dy <;> simp
  · simp

lemma curve_fold_eq (spot b q : ℚ) (vd : Date) (basis : ℤ)
    (ts : List String) (acc : List CurveRow) :
    ts.foldl (curve_step spot b q vd basis) acc
      = acc ++ ts.filterMap (curveRowOf spot b q vd basis) := by
  induction ts generalizing acc with
  | nil => simp
  | cons t ts ih =>
    rw [List.foldl_cons, ih, curve_step_eq, List.filterMap_cons]
    cases curveRowOf spot b q vd basis t <;> simp

/-- C2: the module-level curve loop over the fixed schedule
`["1W","1M","2M","3M","6M","9M","1Y","2Y"]` is total and produces exactly
one row per tenor whose resolved date is strictly after the value date and
whose forward computation succeeds, in schedule order (it equals
`filterMap` of the per-tenor row over the schedule); in particular, when
every tenor fails it returns the empty list rather than failing. -/
theorem c2_forward_curve (spot b q : ℚ) (vd : Date) (basis : ℤ) :
    forward_data spot b q vd basis
      = tenors.filterMap (curveRowOf spot b q vd basis) ∧
    ((∀ t ∈ tenors, curveRowOf spot b q vd basis t = none) →
      forward_data spot b q vd basis = []) := by
  have hmain : forward_data spot b q vd basis
      = tenors.filterMap (curveRowOf spot b q vd basis) := by
    unfold forward_data
    rw [curve_fold_eq]
    simp
  refine ⟨hmain, fun hall => ?_⟩
  rw [hmain]
  exact List.filterMap_eq_nil_iff.mpr hall

/-- Witness for C2: with a zero day basis every tenor's forward
computation fails, and the curve is empty. -/
theorem c2_forward_curve_witness :
    forward_data 1 1 1 ⟨2024,1,15⟩ 0 = [] :=
  (c2_forward_curve 1 1 1 ⟨2024,1,15⟩ 0).2 (by decide)
